import Mathlib

/-!
Shallow embedding of the drand multi-protocol core (registry, dispatch,
DKG completion, beacon lifecycle, beacon serving) and proofs about it.

Go maps are modelled as association lists with update-in-place semantics,
Go `nil`-able pointers as `Option`, and fallible calls as `Except`/`Option`
results.  External collaborators (the on-disk store, the beacon handler's
internals) are modelled at the boundary the spec fixes for them, each
marked `Modelled from the spec:` in its doc comment.
-/

namespace DrandCore

/-- Association-list model of a Go map: `mapInsert` is `m[k] = v`
(replaces the binding in place when the key exists). -/
def mapInsert {α : Type} : List (String × α) → String → α → List (String × α)
  | [], k, v => [(k, v)]
  | kv :: rest, k, v => if kv.1 = k then (k, v) :: rest else kv :: mapInsert rest k v

/-- Association-list model of a Go map read: `v, ok := m[k]`. -/
def mapLookup {α : Type} : List (String × α) → String → Option α
  | [], _ => none
  | kv :: rest, k => if kv.1 = k then some kv.2 else mapLookup rest k

/-- A protocol instance as the dispatch layer sees it: only its registry key
(the group hash) matters for routing. -/
structure LoadedProto where
  key : String
deriving DecidableEq, Repr

/-- The dispatch `Server` state from `src/unnamed/part_001`: the registry of
running protocols keyed by group hash, and the remembered legacy V1 alias
identifier (the Go zero value `""` means no alias registered). -/
structure Server where
  protocols : List (String × LoadedProto)
  v1ID : String
deriving Repr

/-- Outcome of dispatching one inbound partial-beacon message. -/
inductive DispatchResult where
  | forwarded (id : String)
  | errMissingID
  | errUnknownNetwork
deriving DecidableEq, Repr

/-- Embeds `Server.PartialBeacon` (src/unnamed/part_001 and part_000): an
empty group-hash field is replaced by the V1 alias when one is registered,
or rejected; then the (possibly substituted) identifier is looked up in the
registry and the call is forwarded to the instance found there. -/
def Server.PartBeacon (s : Server) (groupHash : String) : DispatchResult :=
  let gh : Option String :=
    if groupHash = "" then
      if s.v1ID = "" then none else some s.v1ID
    else some groupHash
  match gh with
  | none => .errMissingID
  | some id =>
    match mapLookup s.protocols id with
    | none => .errUnknownNetwork
    | some _ => .forwarded id

/-- The version tag of the legacy protocol (`VERSION_1 = "V1"` in src). -/
def VERSION_1 : String := "V1"

/-- The version tag of the second protocol (`VERSION_2 = "V2"` in src/core/v2.go). -/
def VERSION_2 : String := "V2"

/-- Embeds `registerProtocol` (src/core/protocol.go): a plain map assignment
`protocols[v] = f`, with no duplicate check.  Factories are identified by an
opaque number. -/
def registerProtocol (m : List (String × Nat)) (v : String) (f : Nat) :
    List (String × Nat) :=
  mapInsert m v f

/-- One entry of `SearchProtocolConfig`'s output together with the outcome of
`factory.Load` on it: the factory either fails with an error string or yields
a running protocol whose `Key()` is `LoadedProto.key`. -/
structure PConfig where
  version : String
  loadResult : Except String LoadedProto

/-- Result of `Server.LoadProtocols`: the registry built, the recorded V1
alias, the collected per-folder error strings, and the error value the call
returns to its caller. -/
structure LoadOut where
  protocols : List (String × LoadedProto)
  v1ID : String
  errs : List String
  ret : Option String
deriving DecidableEq, Repr

/-- The loop of `Server.LoadProtocols` (src/unnamed/part_000): a folder whose
`Load` fails appends one error and continues; a successful protocol is
registered under its key; the first V1 protocol records the alias, a second
V1 appends a duplicate error and continues. -/
def loadLoop : List PConfig → List (String × LoadedProto) → String → List String → Bool → LoadOut
  | [], protos, v1ID, errs, _ => ⟨protos, v1ID, errs, none⟩
  | c :: rest, protos, v1ID, errs, v1Found =>
    match c.loadResult with
    | .error e => loadLoop rest protos v1ID (errs ++ [e]) v1Found
    | .ok p =>
      let protos2 := mapInsert protos p.key p
      if c.version = VERSION_1 then
        if v1Found then
          loadLoop rest protos2 v1ID (errs ++ ["V1 duplicate protocol found"]) v1Found
        else
          loadLoop rest protos2 p.key errs true
      else
        loadLoop rest protos2 v1ID errs v1Found

/-- Embeds `Server.LoadProtocols` (src/unnamed/part_000): starts from an empty
registry, no alias, no errors; the final `return nil` of the Go code is the
`ret := none` that `loadLoop` puts in every result. -/
def LoadProtocols (configs : List PConfig) : LoadOut :=
  loadLoop configs [] "" [] false

/-- A participant of a group: its index (the field the DKG qualification
filter compares), address and public key share commitment. -/
structure Node where
  index : Nat
  addr : String
  key : Nat
deriving DecidableEq, Repr

/-- This node's private DKG share.  `pub` stands for the distributed public
key that `Share.Public()` derives from the share (the derivation itself is an
out-of-scope cryptographic capability, so it is carried as a field). -/
structure Share where
  value : Nat
  pub : Nat
deriving DecidableEq, Repr

/-- Embeds `key.Share.Public()`: the combined public key derived from the
share. -/
def Share.Public (s : Share) : Nat := s.pub

/-- A group: node list, combined public key (`none` before the DKG sets it),
threshold and transition time. -/
structure Group where
  nodes : List Node
  publicKey : Option Nat
  threshold : Nat
  transitionTime : Nat
deriving DecidableEq, Repr

/-- The `dkgInfo` of a `v1Protocol`: the target group under negotiation. -/
structure DkgInfo where
  target : Group
deriving DecidableEq, Repr

/-- The slice of `v1Protocol` state that `WaitDKG` reads and writes. -/
structure V1DkgState where
  group : Option Group
  share : Option Share
  dkgInfo : Option DkgInfo
deriving DecidableEq, Repr

/-- What the DKG run reports on the completion channel (`res` in `WaitDKG`):
an optional error, the derived key share, and the qualified node set `QUAL`. -/
structure DKGOutcome where
  error : Option String
  key : Share
  qual : List Node
deriving DecidableEq, Repr

/-- The qualification filter of `WaitDKG` (src/unnamed/part_002), kept as the
same double loop as the source: for each node of the target group, the inner
loop appends the node once per element of `QUAL` sharing its index. -/
def qualFilterLoop (targetNodes qual : List Node) : List Node :=
  targetNodes.foldl
    (fun acc node =>
      qual.foldl
        (fun acc2 q => if q.index = node.index then acc2 ++ [node] else acc2)
        acc)
    []

/-- Everything observable about one `WaitDKG` run: the state afterwards, what
reached the persistent store, and the returned value. -/
structure WaitDKGResult where
  state : V1DkgState
  savedShare : Option Share
  savedGroup : Option Group
  ret : Except String Group

/-- Whether an `Except` carries a success. -/
def isOkB {ε α : Type} : Except ε α → Bool
  | .ok _ => true
  | .error _ => false

/-- Embeds `v1Protocol.WaitDKG` (src/unnamed/part_002).  The store is an
external collaborator, so whether each of its two writes succeeds enters as
the booleans `saveShareOk` and `saveGroupOk`.  The code: reject when no
`dkgInfo` is set; propagate a DKG error; filter the target nodes by `QUAL`
index; set and save the share (returning on failure); build the final group
from the target with the qualified nodes and the public key derived from the
share, set and save it (returning on failure); clear `dkgInfo` and return the
group. -/
def WaitDKG (st : V1DkgState) (res : DKGOutcome) (saveShareOk saveGroupOk : Bool) :
    WaitDKGResult :=
  match st.dkgInfo with
  | none => ⟨st, none, none, .error "no dkg info set"⟩
  | some info =>
    match res.error with
    | some e => ⟨st, none, none, .error ("drand: error from dkg: " ++ e)⟩
    | none =>
      let qualNodes := qualFilterLoop info.target.nodes res.qual
      let s := res.key
      let st1 : V1DkgState := { st with share := some s }
      if saveShareOk = false then ⟨st1, none, none, .error "save share error"⟩
      else
        let targetGroup : Group :=
          { info.target with nodes := qualNodes, publicKey := some s.Public }
        let st2 : V1DkgState := { st1 with group := some targetGroup }
        if saveGroupOk = false then ⟨st2, some s, none, .error "save group error"⟩
        else ⟨{ st2 with dkgInfo := none }, some s, some targetGroup, .ok targetGroup⟩

/-- The side effect `v1Protocol.transition` (src/unnamed/part_002) asks of the
beacon layer, by the three membership cases. -/
inductive TransitionEffect where
  | stopAt (round : Nat)
  | handoverNewGroup
  | syncThenStart
deriving DecidableEq, Repr

/-- Embeds `v1Protocol.transition` (src/unnamed/part_002): `timeToStop` is
`v1.group.TransitionTime - 1` where `v1.group` is already the new group
(`WaitDKG` overwrote it); a node absent from the new group schedules
`StopAt(timeToStop)` on its running generator; a node in both hands the new
share and group over; a node only in the new group syncs then starts. -/
def transition (newGroup : Group) (oldPresent newPresent : Bool) : TransitionEffect :=
  let timeToStop := newGroup.transitionTime - 1
  if newPresent = false then .stopAt timeToStop
  else if oldPresent = true then .handoverNewGroup
  else .syncThenStart

/-- One completed beacon entry. -/
structure Beacon where
  round : Nat
  signature : Nat
  previousSig : Nat
deriving DecidableEq, Repr

/-- The beacon handler as the serving RPCs see it: its round store, in
append order. -/
structure BeaconHandler where
  store : List Beacon
deriving DecidableEq, Repr

/-- Modelled from the spec: the store's `Get` is part of the excluded storage
layer; the spec fixes its boundary as "any other round fetches that exact
round if stored, else fails" (never a neighboring round). -/
def storeGet (store : List Beacon) (r : Nat) : Option Beacon :=
  store.find? (fun b => decide (b.round = r))

/-- Modelled from the spec: the store's `Last` is part of the excluded storage
layer; it returns the most recently produced (last appended) round, failing
on an empty store. -/
def storeLast (store : List Beacon) : Option Beacon :=
  store.getLast?

/-- The errors `v1Protocol.PublicRand` can return: "beacon generation not
started yet" and "cannot retrieve beacon" (round absent from the store). -/
inductive PublicRandErr where
  | beaconNotStarted
  | retrieveError
deriving DecidableEq, Repr

/-- Embeds `v1Protocol.PublicRand` (src/core/v1_public.go): no running
generator is an error; round 0 reads `Store().Last()`, any other round reads
`Store().Get(round)`; a failed read is an error, otherwise the entry found is
returned. -/
def PublicRand (beacon : Option BeaconHandler) (round : Nat) : Except PublicRandErr Beacon :=
  match beacon with
  | none => .error .beaconNotStarted
  | some h =>
    let r := if round = 0 then storeLast h.store else storeGet h.store round
    match r with
    | none => .error .retrieveError
    | some b => .ok b

/-- What one `PublicRandStream` subscriber observes: whether the handler
returned an error, and the beacons delivered to it, in order. -/
structure StreamOutcome where
  err : Option String
  delivered : List Beacon
deriving DecidableEq, Repr

/-- Embeds `v1Protocol.PublicRandStream` (src/core/v1_public.go) as a trace
over one interleaving with beacon production.  The handler runs in three
sequential steps: it reads `lastb := Store().Last()` (over the initial store
`S0`); if the requested round is non-zero and at most `lastb.Round` it
replays the store through a live cursor from the requested round to the
current end, so rounds completed during the replay (`producedDuringReplay`)
are included; only then does it register the live callback.  Rounds completed
between the end of the cursor walk and the registration
(`producedBeforeRegister`) reach no part of the handler; rounds completed
after registration (`producedAfterRegister`) are pushed by the callback. -/
def PublicRandStreamRecv (S0 : List Beacon) (reqRound : Nat)
    (producedDuringReplay producedBeforeRegister producedAfterRegister : List Beacon) :
    StreamOutcome :=
  match storeLast S0 with
  | none => ⟨some "empty store", []⟩
  | some lastb =>
    let replayed :=
      if reqRound ≠ 0 ∧ reqRound ≤ lastb.round then
        (S0 ++ producedDuringReplay).filter (fun b => decide (reqRound ≤ b.round))
      else []
    ⟨none, replayed ++ producedAfterRegister⟩

/-- Modelled from the spec: the beacon handler's `SyncChain` body lives in the
excluded `chain/beacon` package; per the spec it "walks forward contiguously
through the local store and streams each stored round" from the requested
starting round. -/
def handlerSyncChain (h : BeaconHandler) (fromRound : Nat) : List Beacon :=
  h.store.filter (fun b => decide (fromRound ≤ b.round))

/-- What one `SyncChain` call observes: the returned error, if any, and the
rounds streamed to the peer. -/
structure SyncOutcome where
  err : Option String
  streamed : List Beacon
deriving DecidableEq, Repr

/-- Embeds `v1Protocol.SyncChain` (src/core/v1_public.go): with a running
beacon the call delegates to the handler; with none it returns `nil`
immediately, streaming nothing. -/
def SyncChain (beacon : Option BeaconHandler) (fromRound : Nat) : SyncOutcome :=
  match beacon with
  | some h => ⟨none, handlerSyncChain h fromRound⟩
  | none => ⟨none, []⟩

/-- The beacon-generation slice of a `v1Protocol`'s state: the handle field
(`v1.beacon`), plus counters of generator loops ever spawned and ever
stopped, so that "number of active generators" is observable. -/
structure BeaconLifecycle where
  beacon : Option Nat
  spawned : Nat
  stopped : Nat
deriving DecidableEq, Repr

/-- Number of generator loops currently running. -/
def activeGenerators (st : BeaconLifecycle) : Nat := st.spawned - st.stopped

/-- The state invariant the lifecycle maintains: every spawned loop has been
stopped except the one the handle points to, when present. -/
def lifecycleWF (st : BeaconLifecycle) : Prop :=
  st.spawned = st.stopped + (if st.beacon.isSome then 1 else 0)

/-- Embeds `v1Protocol.StartBeacon` (src/unnamed/part_002).  Modelled from the
spec where the source is outside src/: the body of `newBeacon` and the
generator loop it hands to `Start`/`Catchup` are not in the repository slice,
and the spec fixes their contract as "only one beacon-generation handle may
exist per instance at a time; starting while one is already running is a
no-op guarded by the instance lock, not an error (idempotent start)".  The
`catchup` flag selects catch-up versus cold start and does not affect how
many generators run. -/
def StartBeacon (st : BeaconLifecycle) (catchup : Bool) : BeaconLifecycle :=
  match st.beacon with
  | some _ => st
  | none =>
    let _ := catchup
    { st with beacon := some st.spawned, spawned := st.spawned + 1 }

/-- Embeds `v1Protocol.StopBeacon` (src/unnamed/part_002): under the state
lock, return at once when `v1.beacon` is `nil`; otherwise stop the generator
(a synchronous quiesce) and reset the handle to `nil`.  The Go method returns
no error in either case. -/
def StopBeacon (st : BeaconLifecycle) : BeaconLifecycle :=
  match st.beacon with
  | none => st
  | some _ => { st with beacon := none, stopped := st.stopped + 1 }

/-- A concrete beacon for round `r`. -/
def bcn (r : Nat) : Beacon := ⟨r, r, r - 1⟩

/-- A store holding rounds 1 through 10, in order. -/
def store10 : List Beacon := (List.range 10).map (fun i => bcn (i + 1))

/-- Concrete node, group, state and DKG outcome used to evaluate `WaitDKG`
at one input. -/
def exNode : Node := ⟨0, "a", 1⟩

/-- Concrete target group for the `WaitDKG` runs below. -/
def exTarget : Group := ⟨[exNode], none, 1, 100⟩

/-- Concrete pre-`WaitDKG` state with the DKG info set. -/
def exSt : V1DkgState := ⟨none, none, some ⟨exTarget⟩⟩

/-- Concrete successful DKG outcome qualifying the single node. -/
def exRes : DKGOutcome := ⟨none, ⟨5, 7⟩, [exNode]⟩

/-- Concrete protocol instance registered under the V1 alias. -/
def exProto : LoadedProto := ⟨"v1key"⟩

/-- Concrete dispatch server with one protocol, registered as the V1 alias. -/
def exServer : Server := ⟨[("v1key", exProto)], "v1key"⟩

/-- Concrete folder whose `Load` fails. -/
def cfgBad : PConfig := ⟨VERSION_2, .error "cannot load"⟩

/-- Concrete folder whose `Load` succeeds with key `k2`. -/
def cfgGood : PConfig := ⟨VERSION_2, .ok ⟨"k2"⟩⟩

/-- Concrete group declaring transition time 100. -/
def exNewGroup : Group := ⟨[exNode], some 7, 1, 100⟩

/-- Concrete lifecycle state with no generator. -/
def exLifecycle : BeaconLifecycle := ⟨none, 0, 0⟩

/-- Concrete handler storing rounds 1 through 3. -/
def exHandler : BeaconHandler := ⟨[bcn 1, bcn 2, bcn 3]⟩

end DrandCore

namespace DrandCore

theorem mapLookup_mapInsert {α : Type} (m : List (String × α)) (k k' : String) (v : α) :
    mapLookup (mapInsert m k v) k' = if k = k' then some v else mapLookup m k' := by
  induction m with
  | nil => simp [mapInsert, mapLookup]
  | cons kv rest ih =>
    obtain ⟨a, b⟩ := kv
    by_cases h1 : a = k
    · subst h1
      by_cases h2 : a = k'
      · subst h2; simp [mapInsert, mapLookup]
      · simp [mapInsert, mapLookup, h2]
    · by_cases h2 : a = k'
      · subst h2
        have h3 : ¬k = a := fun h => h1 h.symm
        simp [mapInsert, mapLookup, h1, h3]
      · simp [mapInsert, mapLookup, h1, h2, ih]

theorem mapLookup_isSome_mapInsert {α : Type} (m : List (String × α)) (k k' : String)
    (v : α) (h : (mapLookup m k').isSome = true) :
    (mapLookup (mapInsert m k v) k').isSome = true := by
  rw [mapLookup_mapInsert]
  by_cases hk : k = k' <;> simp [hk, h]

theorem loadLoop_v1_registered (configs : List PConfig)
    (protos : List (String × LoadedProto)) (v1ID : String) (errs : List String)
    (v1Found : Bool)
    (h : v1ID ≠ "" → (mapLookup protos v1ID).isSome = true) :
    (loadLoop configs protos v1ID errs v1Found).v1ID ≠ "" →
      (mapLookup (loadLoop configs protos v1ID errs v1Found).protocols
        (loadLoop configs protos v1ID errs v1Found).v1ID).isSome = true := by
  induction configs generalizing protos v1ID errs v1Found with
  | nil => simpa [loadLoop] using h
  | cons c rest ih =>
    obtain ⟨ver, lres⟩ := c
    cases lres with
    | error e => exact ih protos v1ID (errs ++ [e]) v1Found h
    | ok p =>
      have hred : loadLoop (⟨ver, Except.ok p⟩ :: rest) protos v1ID errs v1Found
          = if ver = VERSION_1 then
              (if v1Found then
                 loadLoop rest (mapInsert protos p.key p) v1ID
                   (errs ++ ["V1 duplicate protocol found"]) v1Found
               else loadLoop rest (mapInsert protos p.key p) p.key errs true)
            else loadLoop rest (mapInsert protos p.key p) v1ID errs v1Found := rfl
      rw [hred]
      by_cases hv : ver = VERSION_1
      · rw [if_pos hv]
        cases v1Found with
        | false =>
          rw [if_neg (by simp)]
          refine ih _ p.key errs true (fun _ => ?_)
          rw [mapLookup_mapInsert]
          simp
        | true =>
          rw [if_pos rfl]
          exact ih _ v1ID _ true
            (fun hne => mapLookup_isSome_mapInsert protos p.key v1ID p (h hne))
      · rw [if_neg hv]
        exact ih _ v1ID errs v1Found
          (fun hne => mapLookup_isSome_mapInsert protos p.key v1ID p (h hne))

/-- After `LoadProtocols`, a non-empty recorded V1 alias is always a key of
the registry: the alias is only ever set to the key a protocol was just
registered under, and registration never removes keys. -/
theorem loadProtocols_v1_registered (configs : List PConfig)
    (h : (LoadProtocols configs).v1ID ≠ "") :
    (mapLookup (LoadProtocols configs).protocols (LoadProtocols configs).v1ID).isSome
      = true :=
  loadLoop_v1_registered configs [] "" [] false (fun hne => absurd rfl hne) h

/-- C1: for every inbound partial-beacon message dispatched by the Server,
under the invariant that a registered V1 alias is a key of the registry: an
empty identifier with no alias fails with the missing-identifier error; an
empty identifier with an alias registered is routed to the alias instance; a
non-empty identifier absent from the registry fails with the unknown-network
error; a non-empty identifier present in the registry is forwarded to the
matching instance. -/
theorem partBeacon_dispatch (s : Server) (gh : String)
    (hinv : s.v1ID ≠ "" → (mapLookup s.protocols s.v1ID).isSome = true) :
    (gh = "" → s.v1ID = "" → s.PartBeacon gh = .errMissingID) ∧
    (gh = "" → s.v1ID ≠ "" → s.PartBeacon gh = .forwarded s.v1ID) ∧
    (gh ≠ "" → mapLookup s.protocols gh = none → s.PartBeacon gh = .errUnknownNetwork) ∧
    (gh ≠ "" → (mapLookup s.protocols gh).isSome = true → s.PartBeacon gh = .forwarded gh) := by
  refine ⟨?_, ?_, ?_, ?_⟩
  · intro h1 h2
    simp [Server.PartBeacon, h1, h2]
  · intro h1 h2
    have hs := hinv h2
    match hm : mapLookup s.protocols s.v1ID with
    | none => rw [hm] at hs; simp at hs
    | some p => simp [Server.PartBeacon, h1, h2, hm]
  · intro h1 h2
    simp [Server.PartBeacon, h1, h2]
  · intro h1 h2
    match hm : mapLookup s.protocols gh with
    | none => rw [hm] at h2; simp at h2
    | some p => simp [Server.PartBeacon, h1, hm]

/-- C1 witness: the dispatch routes an identifier-less message to the alias
instance of a concrete server, and rejects an unknown identifier. -/
theorem partBeacon_dispatch_witness :
    exServer.PartBeacon "" = .forwarded "v1key" ∧
    exServer.PartBeacon "zz" = .errUnknownNetwork :=
  ⟨(partBeacon_dispatch exServer "" (by decide)).2.1 rfl (by decide),
   (partBeacon_dispatch exServer "zz" (by decide)).2.2.1 (by decide) (by decide)⟩

/-- C9 counterexample: registering a second factory under the already
registered version "V1" does not fail — the call completes and the registry
now maps "V1" to the new factory, the old one silently replaced. -/
theorem registerProtocol_silent_replace :
    mapLookup (registerProtocol [] "V1" 1) "V1" = some 1 ∧
    mapLookup (registerProtocol (registerProtocol [] "V1" 1) "V1" 2) "V1" = some 2 := by
  constructor <;> rfl

/-- C9 amended: `registerProtocol` is a plain map assignment; registering any
version, already present or not, always succeeds and makes the registry
return the newly supplied factory for that version, silently replacing any
existing one. -/
theorem registerProtocol_replaces (m : List (String × Nat)) (v : String) (f : Nat) :
    mapLookup (registerProtocol m v f) v = some f := by
  rw [registerProtocol, mapLookup_mapInsert]
  simp

/-- C7: `LoadProtocols` over a failing folder followed by a loading one
collects exactly one error for the failure and still registers the survivor,
but returns `nil` to its caller — the combined error report announced by the
claim (and by the function's own doc comment) is never returned. -/
theorem loadProtocols_partial_failure :
    (LoadProtocols [cfgBad, cfgGood]).errs = ["cannot load"] ∧
    mapLookup (LoadProtocols [cfgBad, cfgGood]).protocols "k2" = some ⟨"k2"⟩ ∧
    (LoadProtocols [cfgBad, cfgGood]).ret = none := by
  refine ⟨rfl, rfl, rfl⟩

/-- C4: when this node is in the old group and not in the new one,
`transition` schedules the running generator to stop at exactly the round one
before the new group's declared transition time. -/
theorem transition_old_leaves_one_round_early (g : Group) (h : 1 ≤ g.transitionTime) :
    transition g true false = .stopAt (g.transitionTime - 1) ∧
    g.transitionTime - 1 + 1 = g.transitionTime :=
  ⟨rfl, Nat.sub_add_cancel h⟩

/-- C4 witness: a leaving node under a group with transition time 100 stops
at round 99. -/
theorem transition_old_leaves_one_round_early_witness :
    transition exNewGroup true false = .stopAt 99 ∧ 99 + 1 = exNewGroup.transitionTime :=
  transition_old_leaves_one_round_early exNewGroup (by decide)

/-- C10: a `SyncChain` request served while no beacon generator is running
returns success and streams no rounds, while `PublicRand` in the same state
fails with the beacon-not-started error. -/
theorem syncChain_no_beacon_succeeds (r : Nat) :
    (SyncChain none r).err = none ∧ (SyncChain none r).streamed = [] ∧
    PublicRand none r = .error .beaconNotStarted :=
  ⟨rfl, rfl, rfl⟩

theorem qualInnerFold (node : Node) (qual acc : List Node) :
    qual.foldl (fun acc2 q => if q.index = node.index then acc2 ++ [node] else acc2) acc
      = acc ++ (qual.filter (fun q => decide (q.index = node.index))).map (fun _ => node) := by
  induction qual generalizing acc with
  | nil => simp
  | cons q qs ih =>
    by_cases h : q.index = node.index
    · simp [List.foldl_cons, List.filter_cons, h, ih]
    · simp [List.foldl_cons, List.filter_cons, h, ih]

theorem qualFilterNodup (node : Node) (qual : List Node)
    (h : (qual.map Node.index).Nodup) :
    (qual.filter (fun q => decide (q.index = node.index))).map (fun _ => node)
      = if qual.any (fun q => decide (q.index = node.index)) then [node] else [] := by
  induction qual with
  | nil => simp
  | cons q qs ih =>
    rw [List.map_cons, List.nodup_cons] at h
    by_cases hq : q.index = node.index
    · have hnil : qs.filter (fun q2 => decide (q2.index = node.index)) = [] := by
        rw [List.filter_eq_nil_iff]
        intro a ha
        simp only [decide_eq_true_eq]
        intro hai
        exact h.1 (List.mem_map.mpr ⟨a, ha, hai.trans hq.symm⟩)
      simp [List.filter_cons, List.any_cons, hq, hnil]
    · simp [List.filter_cons, List.any_cons, hq, ih h.2]

theorem qualFilterLoop_eq (target qual : List Node)
    (h : (qual.map Node.index).Nodup) :
    qualFilterLoop target qual
      = target.filter (fun n => qual.any (fun q => decide (q.index = n.index))) := by
  have main : ∀ acc : List Node,
      target.foldl
        (fun acc node =>
          qual.foldl
            (fun acc2 q => if q.index = node.index then acc2 ++ [node] else acc2)
            acc)
        acc
      = acc ++ target.filter (fun n => qual.any (fun q => decide (q.index = n.index))) := by
    induction target with
    | nil => intro acc; simp
    | cons n ns ih =>
      intro acc
      rw [List.foldl_cons, qualInnerFold, qualFilterNodup n qual h, ih]
      by_cases hn : qual.any (fun q => decide (q.index = n.index)) = true
      · simp [List.filter_cons, hn]
      · simp [List.filter_cons, hn]
  simpa [qualFilterLoop] using main []

/-- C2: a successful `WaitDKG` run (DKG info set, no DKG error, both saves
succeeding) returns the target group restricted to exactly those invited
nodes whose index occurs in the reported qualified set, with the combined
public key set to the key derived from the new share.  The hypothesis that
`QUAL` carries no duplicate index reflects that it is a set of
participants. -/
theorem waitDKG_qual_intersection (st : V1DkgState) (info : DkgInfo) (res : DKGOutcome)
    (hinfo : st.dkgInfo = some info) (herr : res.error = none)
    (hnodup : (res.qual.map Node.index).Nodup) :
    (WaitDKG st res true true).ret =
      .ok { info.target with
            nodes := info.target.nodes.filter
              (fun n => res.qual.any (fun q => decide (q.index = n.index))),
            publicKey := some res.key.Public } := by
  have h1 : (WaitDKG st res true true).ret =
      .ok { info.target with
            nodes := qualFilterLoop info.target.nodes res.qual,
            publicKey := some res.key.Public } := by
    unfold WaitDKG
    rw [hinfo, herr]
    rfl
  rw [h1, qualFilterLoop_eq _ _ hnodup]

/-- C2 witness: a one-node target group with that node qualified yields the
group with the node kept and the public key 7 derived from the share. -/
theorem waitDKG_qual_intersection_witness :
    (WaitDKG exSt exRes true true).ret = .ok ⟨[exNode], some 7, 1, 100⟩ :=
  waitDKG_qual_intersection exSt ⟨exTarget⟩ exRes rfl rfl (by decide)

/-- C3 counterexample: in the `WaitDKG` run where the share save succeeds and
the group save fails, the share is persisted while the group is not — the
claimed "Share persisted iff Group persisted" is false on this run (the call
does return an error). -/
theorem waitDKG_share_without_group :
    ¬(((WaitDKG exSt exRes true false).savedShare.isSome = true) ↔
      ((WaitDKG exSt exRes true false).savedGroup.isSome = true)) ∧
    isOkB (WaitDKG exSt exRes true false).ret = false := by
  constructor
  · decide
  · rfl

/-- C3 amended: in every `WaitDKG` run the Group is persisted only if the
Share is (the persistence order is Share first, then Group, so a failed group
save can leave a Share persisted without its Group); `WaitDKG` returns
success only when both are persisted, and any persistence failure makes it
return an error. -/
theorem waitDKG_persist_order (st : V1DkgState) (res : DKGOutcome) (sOk gOk : Bool) :
    ((WaitDKG st res sOk gOk).savedGroup.isSome = true →
      (WaitDKG st res sOk gOk).savedShare.isSome = true) ∧
    (isOkB (WaitDKG st res sOk gOk).ret = true →
      (WaitDKG st res sOk gOk).savedShare.isSome = true ∧
      (WaitDKG st res sOk gOk).savedGroup.isSome = true) ∧
    ((sOk = false ∨ gOk = false) → isOkB (WaitDKG st res sOk gOk).ret = false) := by
  obtain ⟨g0, s0, di⟩ := st
  obtain ⟨err, rkey, rqual⟩ := res
  cases di <;> cases err <;> cases sOk <;> cases gOk <;>
    simp [WaitDKG, isOkB]

/-- C3 amended witness: the fully successful concrete run persists both the
share and the group. -/
theorem waitDKG_persist_order_witness :
    (WaitDKG exSt exRes true true).savedShare.isSome = true ∧
    (WaitDKG exSt exRes true true).savedGroup.isSome = true :=
  (waitDKG_persist_order exSt exRes true true).2.1 rfl

/-- C5: evaluation of the stream handler at a failing interleaving.  With
rounds 1..10 stored and a subscription from round 5, a round 11 that
completes after the replay cursor ends but before the live callback is
registered is never delivered: the subscriber receives 5..10 and then 12,
skipping 11, refuting the claimed no-gap hand-off between replay and live
phases for every interleaving. -/
theorem publicRandStream_gap :
    (PublicRandStreamRecv store10 5 [] [bcn 11] [bcn 12]).err = none ∧
    (PublicRandStreamRecv store10 5 [] [bcn 11] [bcn 12]).delivered
      = [bcn 5, bcn 6, bcn 7, bcn 8, bcn 9, bcn 10, bcn 12] ∧
    bcn 11 ∉ (PublicRandStreamRecv store10 5 [] [bcn 11] [bcn 12]).delivered := by
  refine ⟨rfl, by decide, by decide⟩

/-- C6: beacon start and stop are idempotent.  On a well-formed lifecycle
state, starting with a generator already running changes nothing; starting
twice from any state leaves exactly one active generator; stopping with no
generator present changes nothing (the method returns no error); stopping
twice leaves no generator and none active. -/
theorem beacon_start_stop_idempotent (st : BeaconLifecycle) (c1 c2 : Bool)
    (hwf : lifecycleWF st) :
    (st.beacon.isSome = true → StartBeacon st c1 = st) ∧
    (activeGenerators (StartBeacon (StartBeacon st c1) c2) = 1 ∧
      (StartBeacon (StartBeacon st c1) c2).beacon.isSome = true) ∧
    (st.beacon = none → StopBeacon st = st) ∧
    ((StopBeacon (StopBeacon st)).beacon = none ∧
      activeGenerators (StopBeacon (StopBeacon st)) = 0) := by
  obtain ⟨b, sp, so⟩ := st
  cases b with
  | none =>
    simp only [lifecycleWF] at hwf
    simp only [Option.isSome_none, Bool.false_eq_true, if_false, Nat.add_zero] at hwf
    refine ⟨?_, ⟨?_, ?_⟩, ?_, ?_, ?_⟩
    · intro h; exact absurd h (by simp)
    · show sp + 1 - so = 1
      omega
    · rfl
    · intro _; rfl
    · rfl
    · show sp - so = 0
      omega
  | some hId =>
    simp only [lifecycleWF] at hwf
    simp only [Option.isSome_some, if_true] at hwf
    refine ⟨?_, ⟨?_, ?_⟩, ?_, ?_, ?_⟩
    · intro _; rfl
    · show sp - so = 1
      omega
    · rfl
    · intro h; exact absurd h (by simp)
    · rfl
    · show sp - (so + 1) = 0
      omega

/-- C6 witness: from a fresh instance, starting twice leaves exactly one
active generator, stopping on the fresh instance is a no-op, and stopping
twice leaves no generator. -/
theorem beacon_start_stop_idempotent_witness :
    activeGenerators (StartBeacon (StartBeacon exLifecycle true) true) = 1 ∧
    StopBeacon exLifecycle = exLifecycle ∧
    (StopBeacon (StopBeacon exLifecycle)).beacon = none :=
  ⟨(beacon_start_stop_idempotent exLifecycle true true rfl).2.1.1,
   (beacon_start_stop_idempotent exLifecycle true true rfl).2.2.1 rfl,
   (beacon_start_stop_idempotent exLifecycle true true rfl).2.2.2.1⟩

theorem getLast?_mem_le :
    ∀ l : List Beacon, List.Pairwise (fun a b => a.round < b.round) l →
    ∀ b : Beacon, l.getLast? = some b → b ∈ l ∧ ∀ c ∈ l, c.round ≤ b.round := by
  intro l
  induction l with
  | nil => intro _ b hb; cases hb
  | cons x xs ih =>
    intro hp b hb
    cases xs with
    | nil =>
      have hx : x = b := by simpa using hb
      subst hx
      refine ⟨List.mem_singleton_self x, ?_⟩
      intro c hc
      have : c = x := by simpa using hc
      subst this
      exact le_refl _
    | cons y ys =>
      have hb2 : (y :: ys).getLast? = some b := by
        simpa [List.getLast?_cons_cons] using hb
      have hp2 := List.pairwise_cons.mp hp
      obtain ⟨hmem, hle⟩ := ih hp2.2 b hb2
      refine ⟨List.mem_cons_of_mem x hmem, ?_⟩
      intro c hc
      rcases List.mem_cons.mp hc with rfl | hc2
      · exact le_of_lt (hp2.1 b hmem)
      · exact hle c hc2

theorem find?_round_of_mem (l : List Beacon)
    (hp : List.Pairwise (fun a b => a.round < b.round) l) (b : Beacon)
    (hb : b ∈ l) (r : Nat) (hr : b.round = r) :
    l.find? (fun x => decide (x.round = r)) = some b := by
  induction l with
  | nil => cases hb
  | cons x xs ih =>
    have hp2 := List.pairwise_cons.mp hp
    rcases List.mem_cons.mp hb with rfl | hmem
    · apply List.find?_cons_of_pos
      simp [hr]
    · have hx : x.round ≠ r := by
        have hlt := hp2.1 b hmem
        omega
      rw [List.find?_cons_of_neg]
      · exact ih hp2.2 hmem
      · simp [hx]

/-- C8: the `PublicRand` contract.  With no generator running, every request
fails with the beacon-not-started error.  With a generator running over a
store whose rounds increase in append order: a round-0 request returns the
most recently produced round (the stored round of maximal round number); a
non-zero-round request that succeeds returns exactly the requested round from
the store; a non-zero round absent from the store fails with the retrieval
error; and a non-zero round that is stored is actually returned, as the
stored entry for exactly that round. -/
theorem publicRand_contract (hdl : BeaconHandler) (r : Nat)
    (hsorted : List.Pairwise (fun a b => a.round < b.round) hdl.store) :
    (PublicRand none r = .error .beaconNotStarted) ∧
    (hdl.store ≠ [] → ∃ b, PublicRand (some hdl) 0 = .ok b ∧ b ∈ hdl.store ∧
      ∀ c ∈ hdl.store, c.round ≤ b.round) ∧
    (r ≠ 0 → ∀ b, PublicRand (some hdl) r = .ok b → b.round = r ∧ b ∈ hdl.store) ∧
    (r ≠ 0 → (∀ b ∈ hdl.store, b.round ≠ r) →
      PublicRand (some hdl) r = .error .retrieveError) ∧
    (r ≠ 0 → ∀ b ∈ hdl.store, b.round = r → PublicRand (some hdl) r = .ok b) := by
  refine ⟨rfl, ?_, ?_, ?_, ?_⟩
  · intro hne
    have hsome : hdl.store.getLast?.isSome := by
      rw [List.getLast?_isSome]
      exact hne
    obtain ⟨b, hb⟩ := Option.isSome_iff_exists.mp hsome
    obtain ⟨hmem, hle⟩ := getLast?_mem_le hdl.store hsorted b hb
    refine ⟨b, ?_, hmem, hle⟩
    simp [PublicRand, storeLast, hb]
  · intro hr b hok
    simp only [PublicRand, storeLast, if_neg hr] at hok
    cases hg : storeGet hdl.store r with
    | none => rw [hg] at hok; cases hok
    | some b2 =>
      rw [hg] at hok
      injection hok with hbb
      subst hbb
      have hpred := List.find?_some hg
      exact ⟨of_decide_eq_true hpred, List.mem_of_find?_eq_some hg⟩
  · intro hr hnone
    have hg : storeGet hdl.store r = none := by
      rw [storeGet, List.find?_eq_none]
      intro a ha
      simp only [decide_eq_true_eq]
      exact hnone a ha
    simp [PublicRand, hr, hg]
  · intro hr b hmem hbr
    have hg : storeGet hdl.store r = some b :=
      find?_round_of_mem hdl.store hsorted b hmem r hbr
    simp [PublicRand, hr, hg]

/-- C8 witness: with rounds 1..3 stored, no generator fails with the
not-started error, round 0 returns the latest round, round 2 returns exactly
the stored round 2, and round 5 fails with the retrieval error. -/
theorem publicRand_contract_witness :
    PublicRand none 2 = .error .beaconNotStarted ∧
    (∃ b, PublicRand (some exHandler) 0 = .ok b ∧ b ∈ exHandler.store ∧
      ∀ c ∈ exHandler.store, c.round ≤ b.round) ∧
    PublicRand (some exHandler) 2 = .ok (bcn 2) ∧
    PublicRand (some exHandler) 5 = .error .retrieveError :=
  ⟨(publicRand_contract exHandler 2 (by decide)).1,
   (publicRand_contract exHandler 2 (by decide)).2.1 (by decide),
   (publicRand_contract exHandler 2 (by decide)).2.2.2.2 (by decide) (bcn 2)
     (by decide) rfl,
   (publicRand_contract exHandler 5 (by decide)).2.2.2.1 (by decide) (by decide)⟩

end DrandCore
